import Mathlib

/-!
Verification of the concrete-settings declarative settings framework:
a shallow embedding of the Setting/Settings resolution and validation
engine, plus the environment-variable source from
`concrete_settings/contrib/sources/envvar_source.py`.

The core engine (`concrete_settings/core.py`) is not part of the
repository snapshot (only its test-suite `tests/test_core.py` and the
envvar source are), so the engine's definitions below are modelled from
the specification's words, with their behaviour cross-checked against
the concrete expectations recorded in `tests/test_core.py`.
-/

namespace ConcreteSettings

/-- Semantic type tags for setting values: the concrete runtime types the
type guesser knows about, the `Any` tag, a tag for each Settings container
class (identified by a numeric class id), and a catch-all for other
concrete runtime types. -/
inductive PyType where
  | pyBool
  | pyInt
  | pyFloat
  | pyComplex
  | pyList
  | pyTuple
  | pyRange
  | pyStr
  | pyBytes
  | pySet
  | pyFrozenset
  | pyDict
  | pyAny
  | pySettingsCls (id : Nat)
  | pyOther (tyName : String)
deriving DecidableEq, Repr

/-- Validators are deep-embedded: the two validators used by the test
suite (`is_positive`, `is_less_that_10`), an always-failing validator
with a fixed message, and an always-passing one.  A validator either
passes (no message) or fails with a message. -/
inductive Validator where
  | isPositive
  | isLessThat10
  | alwaysFail (msg : String)
  | alwaysPass
deriving DecidableEq, Repr

mutual

/-- A runtime value: the Undefined sentinel, scalars, containers (whose
contents are irrelevant to every claim and hence unmodelled), a nested
Settings instance, or a value of some other runtime type. -/
inductive Value where
  | undefined
  | vBool (b : Bool)
  | vInt (n : Int)
  | vFloat
  | vComplex
  | vList
  | vTuple
  | vRange
  | vStr (s : String)
  | vBytes
  | vSet
  | vFrozenset
  | vDict
  | vSettings (inst : SettingsInstance)
  | vOther (tyName : String)

/-- The payload of a Setting: either a stored value (the class-level
default) or a computation (a property-style setting). -/
inductive SettingValue where
  | stored (v : Value)
  | computed (c : Computation)

/-- Deep-embedded computations for property-style settings: a constant
result, or the f-string `f'{self.A} {self.B}'` joining two other
settings' current values with a space (as in
`test_property_setting_using_other_settings`). -/
inductive Computation where
  | constVal (v : Value)
  | joinTwo (a b : String)

/-- A Setting: name, payload, type hint and its own validators. -/
inductive Setting where
  | mk (name : String) (sval : SettingValue) (type_hint : PyType)
       (validators : List Validator)

/-- A Settings container class: class id, the assembled settings, the
container's `default_validators` and `mandatory_validators`, and an
optional overridden `validate()` hook. -/
inductive SettingsClass where
  | mk (clsId : Nat) (settings : List Setting)
      (default_validators : List Validator)
      (mandatory_validators : List Validator)
      (validateOverride : Option ValidateOverride)

/-- An overridden `validate()` hook: it either raises a
SettingsValidationError with a message, or returns an empty mapping. -/
inductive ValidateOverride where
  | raisesError (msg : String)
  | returnsEmpty

/-- A Settings container instance: its class plus the instance-level
stored values (assignments made through the instance, shadowing the
class-level defaults).  Instance-level values are leaf values
(`PlainValue`): the test-suite and the specification only ever assign
scalars through an instance. -/
inductive SettingsInstance where
  | mk (cls : SettingsClass) (instValues : List (String × PlainValue))

/-- A leaf value assignable through a container instance. -/
inductive PlainValue where
  | pBool (b : Bool)
  | pInt (n : Int)
  | pStr (s : String)
  | pFloat

end

namespace Setting

def name : Setting → String
  | .mk n _ _ _ => n

def sval : Setting → SettingValue
  | .mk _ s _ _ => s

def type_hint : Setting → PyType
  | .mk _ _ t _ => t

def validators : Setting → List Validator
  | .mk _ _ _ vs => vs

end Setting

namespace SettingsClass

def clsId : SettingsClass → Nat
  | .mk i _ _ _ _ => i

def settings : SettingsClass → List Setting
  | .mk _ s _ _ _ => s

def default_validators : SettingsClass → List Validator
  | .mk _ _ dv _ _ => dv

def mandatory_validators : SettingsClass → List Validator
  | .mk _ _ _ mv _ => mv

def validateOverride : SettingsClass → Option ValidateOverride
  | .mk _ _ _ _ ov => ov

end SettingsClass

namespace SettingsInstance

def cls : SettingsInstance → SettingsClass
  | .mk c _ => c

def instValues : SettingsInstance → List (String × PlainValue)
  | .mk _ vs => vs

end SettingsInstance

/-- The leaf value as a runtime value. -/
def PlainValue.toValue : PlainValue → Value
  | .pBool b => .vBool b
  | .pInt n => .vInt n
  | .pStr s => .vStr s
  | .pFloat => .vFloat

/-- The exact runtime type of a value (the result of Python's `type`).
The Undefined sentinel is given its own catch-all tag. -/
def runtimeType : Value → PyType
  | .undefined => .pyOther "Undefined"
  | .vBool _ => .pyBool
  | .vInt _ => .pyInt
  | .vFloat => .pyFloat
  | .vComplex => .pyComplex
  | .vList => .pyList
  | .vTuple => .pyTuple
  | .vRange => .pyRange
  | .vStr _ => .pyStr
  | .vBytes => .pyBytes
  | .vSet => .pySet
  | .vFrozenset => .pyFrozenset
  | .vDict => .pyDict
  | .vSettings inst => .pySettingsCls inst.cls.clsId
  | .vOther n => .pyOther n

/-- Python's `isinstance` over the embedded values and type tags: exact
runtime-type match, except that a `bool` is also an instance of `int`
(Python's numeric tower makes `bool` a subtype of `int`). -/
def pyIsInstance (v : Value) (t : PyType) : Bool :=
  runtimeType v = t || (match v, t with
    | .vBool _, .pyInt => true
    | _, _ => false)

/-- The ordered list of concrete types the type guesser checks with
`isinstance`, boolean-ness before numeric-ness. -/
def knownTypes : List PyType :=
  [.pyBool, .pyInt, .pyFloat, .pyComplex, .pyList, .pyTuple, .pyRange,
   .pyStr, .pyBytes, .pySet, .pyFrozenset, .pyDict]

/-- Modelled from the spec: the Type Guesser
(`guess(default_value) -> type_hint`, §4.1; the source module holding it
is absent from the snapshot).  It scans the known concrete types in order
with `isinstance` — checking boolean-ness before numeric-ness — and for a
default of any other concrete runtime type yields that exact type; the
Undefined sentinel carries no type information and yields `Any`. -/
def guessTypeHint (v : Value) : PyType :=
  match v with
  | .undefined => .pyAny
  | _ =>
    match knownTypes.find? (fun t => pyIsInstance v t) with
    | some t => t
    | none => runtimeType v

example : guessTypeHint (.vBool true) = .pyBool := by rfl
example : guessTypeHint (.vInt 10) = .pyInt := by rfl
example : guessTypeHint .vFloat = .pyFloat := by rfl

/-- Run one validator on a value: `none` = pass, `some msg` = the
validation error's message.  `is_positive` and `is_less_that_10` match
the fixtures used by `tests/test_core.py`. -/
def runValidator : Validator → Value → Option String
  | .isPositive, .vInt n => if 0 < n then none else some "Value should be positive"
  | .isPositive, _ => none
  | .isLessThat10, .vInt n =>
      if n < 10 then none else some "Value should be less that 10"
  | .isLessThat10, _ => none
  | .alwaysFail m, _ => some m
  | .alwaysPass, _ => none

/-- Run a list of validators on a value in order, with no short-circuit:
every validator runs and every failure message is collected. -/
def runValidators : List Validator → Value → List String
  | [], _ => []
  | vd :: rest, v =>
    match runValidator vd v with
    | none => runValidators rest v
    | some m => m :: runValidators rest v

/-- The `repr` of a type tag, as it appears in validation-error
messages (`<class 'str'>` and the like). -/
def typeName : PyType → String
  | .pyBool => "<class 'bool'>"
  | .pyInt => "<class 'int'>"
  | .pyFloat => "<class 'float'>"
  | .pyComplex => "<class 'complex'>"
  | .pyList => "<class 'list'>"
  | .pyTuple => "<class 'tuple'>"
  | .pyRange => "<class 'range'>"
  | .pyStr => "<class 'str'>"
  | .pyBytes => "<class 'bytes'>"
  | .pySet => "<class 'set'>"
  | .pyFrozenset => "<class 'frozenset'>"
  | .pyDict => "<class 'dict'>"
  | .pyAny => "typing.Any"
  | .pySettingsCls n => "<class 'Settings" ++ toString n ++ "'>"
  | .pyOther n => "<class '" ++ n ++ "'>"

/-- Modelled from the spec: the built-in type-check validator
(`ValueTypeValidator`, whose module is absent from the snapshot).  It
fails with a validation error when the resolved value's runtime type is
not assignable to the Setting's `type_hint`, unless the value is the
Undefined sentinel (exempt from type checking) or the hint is `Any`. -/
def valueTypeValidator (th : PyType) (v : Value) : Option String :=
  match v with
  | .undefined => none
  | _ =>
    if th = .pyAny then none
    else if pyIsInstance v th then none
    else some ("Expected value of type `" ++ typeName th ++
               "` got value of type `" ++ typeName (runtimeType v) ++ "`")

/-- One entry in a setting's error list: either a plain message string or
a nested error mapping (the error tree of a nested Settings container). -/
inductive ErrItem where
  | msg (s : String)
  | tree (entries : List (String × List ErrItem))

/-- The reserved key under which an error raised by an overridden
`validate()` is recorded. -/
def INVALID_SETTINGS : String := "INVALID_SETTINGS"

/-- Look a name up in the instance-level stored values. -/
def findVal (n : String) : List (String × PlainValue) → Option PlainValue
  | [] => none
  | (k, v) :: rest => if k = n then some v else findVal n rest

/-- Look a setting up by name in a container's settings list. -/
def findSetting (n : String) : List Setting → Option Setting
  | [] => none
  | s :: rest => if s.name = n then some s else findSetting n rest

/-- Python's `str()` of a value, as used by f-string computations. -/
def pyStrOf : Value → String
  | .vInt n => toString n
  | .vStr s => s
  | .vBool true => "True"
  | .vBool false => "False"
  | .undefined => "Undefined"
  | _ => "<value>"

/-- Resolve a stored setting's current value on an instance: the
instance-level assignment if present, else the class-level stored
default, else the Undefined sentinel. -/
def resolveStoredValue (setts : List Setting)
    (vals : List (String × PlainValue)) (n : String) : Value :=
  match findVal n vals with
  | some pv => pv.toValue
  | none =>
    match findSetting n setts with
    | some s =>
      match s.sval with
      | .stored d => d
      | .computed _ => .undefined
    | none => .undefined

/-- Evaluate a property-style setting's computation against the current
instance state.  `joinTwo a b` is the f-string joining the current values
of settings `a` and `b` with a space; it is re-evaluated on every read,
so it always reflects the instance's current stored values. -/
def evalComputation (setts : List Setting)
    (vals : List (String × PlainValue)) : Computation → Value
  | .constVal v => v
  | .joinTwo a b =>
    .vStr (pyStrOf (resolveStoredValue setts vals a) ++ " " ++
           pyStrOf (resolveStoredValue setts vals b))

/-- The leaf validation of one setting's resolved value: run the
container's `default_validators`, then its `mandatory_validators`, then
the Setting's own `validators`, in that concatenation order, then the
built-in type-check validator; collect every failure message. -/
def leafErrors (dv mv : List Validator) (th : PyType) (own : List Validator)
    (v : Value) : List ErrItem :=
  (runValidators (dv ++ mv ++ own) v ++ (valueTypeValidator th v).toList).map .msg

mutual

/-- Modelled from the spec: the `errors` mapping a container's validation
produces (`Settings._run_validation`, absent from the snapshot).  If the
container's `validate()` hook is overridden to raise a validation error,
the error short-circuits validation and is recorded alone under the
reserved `INVALID_SETTINGS` key; otherwise each setting is validated and
the settings with a non-empty error list contribute an entry. -/
def instErrors : SettingsInstance → List (String × List ErrItem)
  | .mk (.mk _ setts dv mv ov) vals =>
    match ov with
    | some (.raisesError m) => [(INVALID_SETTINGS, [ErrItem.msg m])]
    | _ => perSettingErrors dv mv setts vals setts

/-- Validate each setting of a container in declaration order; settings
whose error list is empty contribute no entry.  `allSetts` is the full
settings list of the container (needed to evaluate computations that
read sibling settings). -/
def perSettingErrors (dv mv : List Validator) (allSetts : List Setting)
    (vals : List (String × PlainValue)) :
    List Setting → List (String × List ErrItem)
  | [] => []
  | s :: rest =>
    (match oneSettingErrors dv mv allSetts vals s with
     | [] => []
     | e => [(s.name, e)]) ++ perSettingErrors dv mv allSetts vals rest

/-- Validate one setting: resolve its value (instance assignment over
class default; computations are evaluated afresh) and validate the
resolved value.  Instance-level assignments are leaf values, so only a
class-level default (or a constant computation) can be a nested
container. -/
def oneSettingErrors (dv mv : List Validator) (allSetts : List Setting)
    (vals : List (String × PlainValue)) : Setting → List ErrItem
  | .mk n sval th own =>
    match sval with
    | .computed (.constVal v) => valueErrors dv mv th own v
    | .computed (.joinTwo a b) =>
      leafErrors dv mv th own
        (.vStr (pyStrOf (resolveStoredValue allSetts vals a) ++ " " ++
                pyStrOf (resolveStoredValue allSetts vals b)))
    | .stored d =>
      match findVal n vals with
      | some pv => leafErrors dv mv th own pv.toValue
      | none => valueErrors dv mv th own d

/-- Validate a resolved value: run the leaf validator pipeline, and when
the value is itself a Settings instance, additionally recurse into it —
if the nested container is invalid, its full `errors` mapping is appended
as a nested tree entry. -/
def valueErrors (dv mv : List Validator) (th : PyType)
    (own : List Validator) : Value → List ErrItem
  | .vSettings nested =>
    leafErrors dv mv th own (.vSettings nested) ++
      (match instErrors nested with
       | [] => []
       | ne => [ErrItem.tree ne])
  | v => leafErrors dv mv th own v

end

/-- `is_valid()` (without raising): validation succeeds iff the
aggregated `errors` mapping is empty. -/
def is_valid (inst : SettingsInstance) : Bool :=
  (instErrors inst).isEmpty

mutual

/-- Render one error item for the flattened exception message. -/
def renderItem : ErrItem → String
  | .msg s => s
  | .tree es => renderEntries es

/-- Render an error list, items separated by `; `. -/
def renderItems : List ErrItem → String
  | [] => ""
  | [i] => renderItem i
  | i :: rest => renderItem i ++ "; " ++ renderItems rest

/-- Render an errors mapping as `name: message` entries. -/
def renderEntries : List (String × List ErrItem) → String
  | [] => ""
  | [(n, items)] => n ++ ": " ++ renderItems items
  | (n, items) :: rest => n ++ ": " ++ renderItems items ++ "; " ++ renderEntries rest

end

/-- Modelled from the spec: `is_valid(raise_exception=True)`.  When the
overridden `validate()` hook raises a validation error, that error
propagates to the caller; otherwise, when the aggregated errors mapping
is non-empty, a validation error rendering `name: message` for each
failing entry is raised; a valid container returns true. -/
def isValidRaising (inst : SettingsInstance) : Except String Bool :=
  match inst.cls.validateOverride with
  | some (.raisesError m) => .error m
  | _ =>
    match instErrors inst with
    | [] => .ok true
    | errs => .error (renderEntries errs)

/-- Modelled from the spec: the read protocol of a Setting on a container
instance.  A computation is invoked afresh, bound to the instance, on
every read; a stored setting resolves to the instance-level assignment if
present, else the class-level default; an unknown name reads as
Undefined. -/
def readSetting (inst : SettingsInstance) (n : String) : Value :=
  match findSetting n inst.cls.settings with
  | some s =>
    match s.sval with
    | .computed c => evalComputation inst.cls.settings inst.instValues c
    | .stored _ => resolveStoredValue inst.cls.settings inst.instValues n
  | none => .undefined

/-- Modelled from the spec: the write protocol of a Setting on a
container instance.  Writing to a property-style (computed) setting
fails with an attribute error; writing to a stored setting records the
new value on the instance, shadowing the class-level default without
mutating the shared Setting object. -/
def setAttr (inst : SettingsInstance) (n : String) (pv : PlainValue) :
    Except String SettingsInstance :=
  match findSetting n inst.cls.settings with
  | some s =>
    match s.sval with
    | .computed _ => .error "Can't set attribute: property setting cannot be set"
    | .stored _ => .ok (.mk inst.cls ((n, pv) :: inst.instValues))
  | none => .ok (.mk inst.cls ((n, pv) :: inst.instValues))

/-- Modelled from the spec: instantiating a Settings subclass
(`Settings.__init__`, absent from the snapshot).  A Settings container
must not accept a `value` or a `type_hint` constructor argument (both are
reserved for the Setting-wrapping protocol): passing either raises an
assertion-level error; with neither, construction succeeds with no
instance-level values. -/
def settingsInit (cls : SettingsClass) (kwValue : Option Value)
    (kwTypeHint : Option PyType) : Except String SettingsInstance :=
  match kwValue with
  | some _ => .error "AssertionError: value argument is not accepted by Settings"
  | none =>
    match kwTypeHint with
    | some _ => .error "AssertionError: type_hint argument is not accepted by Settings"
    | none => .ok (.mk cls [])

/-- Python's `str.isupper`: at least one cased character, and no cased
character is lower case. -/
def pyIsUpper (s : String) : Bool :=
  s.toList.any (fun c => c.isUpper || c.isLower) &&
  s.toList.all (fun c => !c.isLower)

/-- A member of an assembled Settings class: either a raw (unconverted)
class attribute or an assembled Setting. -/
inductive ClassMember where
  | rawValue (v : Value)
  | settingMember (s : Setting)

/-- Modelled from the spec: wrapping one class-level attribute into a
Setting during container assembly — the declared annotation is used as
the `type_hint` when present, else the Type Guesser infers it from the
default value. -/
def makeSettingFromAttr (n : String) (annot : Option PyType) (v : Value) : Setting :=
  .mk n (.stored v)
    (match annot with
     | some t => t
     | none => guessTypeHint v) []

/-- Modelled from the spec: the attribute-scanning pass of container
assembly, for one plain (non-callable, non-descriptor) class attribute.
Only attributes whose name is written in upper case become Settings (the
naming rule is fixed by `test_settings_converted_from_attributes`: an
annotated lower-case attribute stays a raw value); an upper-case
attribute is wrapped into a Setting. -/
def convertAttribute (n : String) (annot : Option PyType) (v : Value) : ClassMember :=
  if pyIsUpper n then .settingMember (makeSettingFromAttr n annot v)
  else .rawValue v

/-! ### The environment-variable source
(`concrete_settings/contrib/sources/envvar_source.py`). -/

/-- Python's `str.upper` (over the ASCII names the tests use). -/
def pyUpper (s : String) : String := ⟨s.data.map Char.toUpper⟩

/-- Accumulate a decimal digit string into a number; `none` on a
non-digit. -/
def digitsVal (acc : Nat) : List Char → Option Nat
  | [] => some acc
  | c :: rest =>
    if c.isDigit then digitsVal (acc * 10 + (c.toNat - 48)) rest else none

/-- Parse a (possibly `-`-signed) decimal integer, as Python's `int()`
accepts for plain decimal strings; `none` when the string cannot be
parsed. -/
def strToInt (s : String) : Option Int :=
  match s.data with
  | [] => none
  | c :: rest =>
    if c = '-' then
      match rest with
      | [] => none
      | _ => (digitsVal 0 rest).map (fun n => -(n : Int))
    else (digitsVal 0 (c :: rest)).map (fun n => (n : Int))

/-- Look a key up in the (modelled) process environment. -/
def findEnv (k : String) : List (String × String) → Option String
  | [] => none
  | (k0, v) :: rest => if k0 = k then some v else findEnv k rest

/-- Modelled from the spec: `StringSourceMixin.convert_value` (its module
is absent from the snapshot) — convert an always-string external
representation into the setting's `type_hint`, supporting the primitive
scalar kinds; when the representation cannot be parsed as the target
type, fail with a conversion error rather than a silent default. -/
def convert_value (val : String) (th : PyType) : Except String Value :=
  match th with
  | .pyStr => .ok (.vStr val)
  | .pyBytes => .ok .vBytes
  | .pyInt =>
    match strToInt val with
    | some n => .ok (.vInt n)
    | none => .error ("Cannot convert `" ++ val ++ "` to int")
  | .pyBool =>
    if val = "True" then .ok (.vBool true)
    else if val = "False" then .ok (.vBool false)
    else .error ("Cannot convert `" ++ val ++ "` to bool")
  | .pyFloat =>
    if (val.toList.all Char.isDigit) && val ≠ "" then .ok .vFloat
    else .error ("Cannot convert `" ++ val ++ "` to float")
  | _ => .error ("Cannot convert `" ++ val ++ "` to the declared type")

/-- The result of a `Source.read`: the `NotFound` sentinel, a coerced
value, or a conversion error. -/
inductive ReadResult where
  | notFound
  | value (v : Value)
  | convError (msg : String)

/-- `EnvVarSource.read` (from
`concrete_settings/contrib/sources/envvar_source.py`): upper-case the
parent names, join them and the setting's name (not upper-cased) with
underscores, look the key up in the environment, return `NotFound` when
absent and the converted value otherwise. -/
def envVarRead (env : List (String × String)) (s : Setting)
    (parents : List String) : ReadResult :=
  let key := String.intercalate "_" (parents.map pyUpper ++ [s.name])
  match findEnv key env with
  | none => .notFound
  | some raw =>
    match convert_value raw s.type_hint with
    | .ok v => .value v
    | .error m => .convError m

/-- A source object in a configured chain: either an `EnvVarSource`
instance (identified by an id) or some other source. -/
inductive AnySource where
  | envVarSource (id : Nat)
  | otherSource (srcName : String)
deriving DecidableEq, Repr

/-- Whether a source object is an instance of `EnvVarSource`. -/
def AnySource.isEnvVar : AnySource → Bool
  | .envVarSource _ => true
  | .otherSource _ => false

/-- `EnvVarSource.get_source` (from
`concrete_settings/contrib/sources/envvar_source.py`): return `src`
itself when it is an `EnvVarSource` instance, and `None` otherwise. -/
def get_source (src : AnySource) : Option AnySource :=
  match src with
  | .envVarSource i => some (.envVarSource i)
  | .otherSource _ => none

/-- Look a setting name up in an errors mapping. -/
def findErr (n : String) : List (String × List ErrItem) → Option (List ErrItem)
  | [] => none
  | (k, e) :: rest => if k = n then some e else findErr n rest

/-! ### Theorems -/

/-- C10: `EnvVarSource.get_source(src)` returns `src` itself when `src`
is an `EnvVarSource` instance, and `None` for every other argument. -/
theorem get_source_identity (src : AnySource) :
    (src.isEnvVar = true → get_source src = some src) ∧
    (src.isEnvVar = false → get_source src = none) := by
  cases src <;> simp [get_source, AnySource.isEnvVar]

/-- Witness for C10 at concrete sources. -/
theorem get_source_identity_witness :
    get_source (.envVarSource 7) = some (.envVarSource 7) ∧
    get_source (.otherSource "json") = none :=
  ⟨(get_source_identity (.envVarSource 7)).1 (by rfl),
   (get_source_identity (.otherSource "json")).2 (by rfl)⟩

/-- C8: the environment-variable source reads the key that joins the
upper-cased parent names and the setting's (un-uppercased) name with
underscores; it returns the `NotFound` sentinel when that variable is
absent, and otherwise the variable's string value converted to the
setting's `type_hint`. -/
theorem envvar_read_key_and_fallback (env : List (String × String))
    (s : Setting) (parents : List String) :
    (findEnv (String.intercalate "_" (parents.map pyUpper ++ [s.name])) env = none →
      envVarRead env s parents = .notFound) ∧
    (∀ raw,
      findEnv (String.intercalate "_" (parents.map pyUpper ++ [s.name])) env = some raw →
      envVarRead env s parents =
        (match convert_value raw s.type_hint with
         | .ok v => .value v
         | .error m => .convError m)) := by
  constructor
  · intro h
    simp only [envVarRead, h]
  · intro raw h
    simp only [envVarRead, h]

/-- Witness for C8: parents `["db"]` and setting name `"port"` read the
key `DB_port` — the parent is upper-cased, the setting name is not. -/
theorem envvar_read_key_and_fallback_witness :
    envVarRead [("DB_port", "5432")] (.mk "port" (.stored .undefined) .pyInt [])
      ["db"] = .value (.vInt 5432) ∧
    envVarRead [] (.mk "port" (.stored .undefined) .pyInt []) ["db"] = .notFound := by
  constructor
  · have h := (envvar_read_key_and_fallback [("DB_port", "5432")]
      (.mk "port" (.stored .undefined) .pyInt []) ["db"]).2 "5432" (by decide)
    exact h.trans (by rfl)
  · exact (envvar_read_key_and_fallback []
      (.mk "port" (.stored .undefined) .pyInt []) ["db"]).1 (by decide)

/-- C7: constructing a Settings instance with a `value` or a `type_hint`
keyword argument raises an assertion-level error; with neither, an
instance is constructed (so an empty Settings class can be
instantiated). -/
theorem settings_init_reserved_arguments (cls : SettingsClass) :
    (∀ v th, (settingsInit cls (some v) th).isOk = false) ∧
    (∀ th, (settingsInit cls none (some th)).isOk = false) ∧
    settingsInit cls none none = .ok (.mk cls []) := by
  refine ⟨fun v th => rfl, fun th => rfl, rfl⟩

/-- C4: for every (non-sentinel) unannotated default value, the guessed
`type_hint` is the exact runtime type of the default — in particular a
`bool` default yields `bool`, never `int`, because the guesser checks
boolean-ness before numeric-ness. -/
theorem guess_type_hint_exact (v : Value) (h : v ≠ Value.undefined) :
    guessTypeHint v = runtimeType v := by
  cases v <;> first
    | exact absurd rfl h
    | rfl

/-- Witness for C4 at a `bool` default (the bool/int pitfall). -/
theorem guess_type_hint_exact_witness :
    Value.vBool true ≠ Value.undefined ∧
    guessTypeHint (.vBool true) = runtimeType (.vBool true) ∧
    guessTypeHint (.vBool true) = .pyBool :=
  ⟨fun h => Value.noConfusion h,
   guess_type_hint_exact (.vBool true) (fun h => Value.noConfusion h),
   rfl⟩

/-- C5: the built-in type-check validator passes on the Undefined
sentinel whatever the declared type; a container whose only potential
error is an Undefined-valued typed setting is valid; and on any other
value whose runtime type is not assignable to the declared `type_hint`,
the type-check validator fails with a validation error. -/
theorem value_type_validator_spec :
    (∀ th, valueTypeValidator th Value.undefined = none) ∧
    (∀ (i : Nat) (nm : String) (th : PyType),
      is_valid (.mk (.mk i [.mk nm (.stored .undefined) th []] [] [] none) []) = true) ∧
    (∀ (v : Value) (th : PyType), v ≠ Value.undefined → th ≠ PyType.pyAny →
      pyIsInstance v th = false →
      valueTypeValidator th v =
        some ("Expected value of type `" ++ typeName th ++
              "` got value of type `" ++ typeName (runtimeType v) ++ "`")) := by
  refine ⟨fun th => rfl, fun i nm th => rfl, fun v th hv hth hinst => ?_⟩
  cases v
  case undefined => exact absurd rfl hv
  all_goals simp [valueTypeValidator, hth, hinst]

/-- Witness for C5: a `str`-typed setting holding an `int`, as in
`test_value_type_validator`. -/
theorem value_type_validator_spec_witness :
    valueTypeValidator .pyStr Value.undefined = none ∧
    is_valid (.mk (.mk 0 [.mk "HOST" (.stored .undefined) .pyStr []] [] [] none) []) = true ∧
    valueTypeValidator .pyStr (.vInt 10) =
      some "Expected value of type `<class 'str'>` got value of type `<class 'int'>`" :=
  ⟨value_type_validator_spec.1 .pyStr,
   value_type_validator_spec.2.1 0 "HOST" .pyStr,
   value_type_validator_spec.2.2 (.vInt 10) .pyStr
     (fun h => Value.noConfusion h) (by decide) (by rfl)⟩

/-- C3: for a container whose overridden `validate()` raises a
validation error, the `errors` mapping is exactly the raised message
under the reserved `INVALID_SETTINGS` key, `is_valid()` is false, and
with `raise_exception=True` the raised error propagates to the caller. -/
theorem validate_raises_invalid_settings (i : Nat) (setts : List Setting)
    (dv mv : List Validator) (vals : List (String × PlainValue)) (m : String) :
    instErrors (.mk (.mk i setts dv mv (some (.raisesError m))) vals) =
      [(INVALID_SETTINGS, [ErrItem.msg m])] ∧
    is_valid (.mk (.mk i setts dv mv (some (.raisesError m))) vals) = false ∧
    isValidRaising (.mk (.mk i setts dv mv (some (.raisesError m))) vals) = .error m :=
  ⟨rfl, rfl, rfl⟩

/-- C9: at class-definition time, a plain class attribute whose name is
not upper case is left as the raw value, annotation or not; an
upper-case attribute with the same annotation and value becomes a
Setting whose `type_hint` is the annotation. -/
theorem attribute_conversion_by_case (n : String) (annot : Option PyType) (v : Value) :
    (pyIsUpper n = false → convertAttribute n annot v = .rawValue v) ∧
    (pyIsUpper n = true → ∀ t, convertAttribute n (some t) v =
      .settingMember (.mk n (.stored v) t [])) := by
  constructor
  · intro h
    simp [convertAttribute, h]
  · intro h t
    simp [convertAttribute, h, makeSettingFromAttr]

/-- Running a concatenation of validator lists collects the failure
messages of each list in order, with no short-circuit. -/
theorem runValidators_append (a b : List Validator) (v : Value) :
    runValidators (a ++ b) v = runValidators a v ++ runValidators b v := by
  induction a with
  | nil => rfl
  | cons hd tl ih =>
    simp only [List.cons_append, runValidators]
    cases runValidator hd v <;> simp [ih]

/-- Per-setting validation distributes over concatenation of the
settings list. -/
theorem perSettingErrors_append (dv mv : List Validator) (allS : List Setting)
    (vals : List (String × PlainValue)) (l1 l2 : List Setting) :
    perSettingErrors dv mv allS vals (l1 ++ l2) =
      perSettingErrors dv mv allS vals l1 ++ perSettingErrors dv mv allS vals l2 := by
  induction l1 with
  | nil => rfl
  | cons s rest ih => simp [perSettingErrors, ih]

/-- Every entry the per-setting validation produces is keyed by the name
of one of the validated settings. -/
theorem mem_perSettingErrors_name (dv mv : List Validator) (allS : List Setting)
    (vals : List (String × PlainValue)) (l : List Setting)
    (p : String × List ErrItem) (hp : p ∈ perSettingErrors dv mv allS vals l) :
    ∃ s ∈ l, p.1 = s.name := by
  induction l with
  | nil => simp [perSettingErrors] at hp
  | cons s rest ih =>
    simp only [perSettingErrors] at hp
    rcases List.mem_append.mp hp with h | h
    · cases hone : oneSettingErrors dv mv allS vals s with
      | nil => rw [hone] at h; simp at h
      | cons e0 es =>
        rw [hone] at h
        simp only [List.mem_singleton] at h
        exact ⟨s, by simp, by rw [h]⟩
    · obtain ⟨t, ht, hname⟩ := ih h
      exact ⟨t, by simp [ht], hname⟩

/-- Looking a name up in an errors mapping skips a block of entries none
of which carries that name. -/
theorem findErr_append_of_ne (n : String) (E1 E2 : List (String × List ErrItem))
    (h : ∀ p ∈ E1, p.1 ≠ n) :
    findErr n (E1 ++ E2) = findErr n E2 := by
  induction E1 with
  | nil => rfl
  | cons p rest ih =>
    obtain ⟨k, e⟩ := p
    have hk : k ≠ n := h (k, e) (by simp)
    simp only [List.cons_append, findErr, if_neg hk]
    exact ih (fun q hq => h q (by simp [hq]))

/-- C1: when a setting's resolved value is itself a Settings instance
and that nested container is invalid, the parent container is invalid
and the parent's `errors` entry under that setting's name carries the
nested container's full `errors` mapping as a recursive tree (to
arbitrary nesting depth, since the conclusion recurses through
`instErrors`). -/
theorem nested_container_errors_tree (i : Nat) (pre post : List Setting)
    (dv mv : List Validator) (vals : List (String × PlainValue))
    (n : String) (th : PyType) (own : List Validator) (nested : SettingsInstance)
    (hpre : ∀ s ∈ pre, s.name ≠ n)
    (hval : findVal n vals = none)
    (hleaf : leafErrors dv mv th own (.vSettings nested) = [])
    (hne : instErrors nested ≠ []) :
    is_valid (.mk (.mk i
        (pre ++ .mk n (.stored (.vSettings nested)) th own :: post) dv mv none)
      vals) = false ∧
    findErr n (instErrors (.mk (.mk i
        (pre ++ .mk n (.stored (.vSettings nested)) th own :: post) dv mv none)
      vals)) = some [ErrItem.tree (instErrors nested)] := by
  set allS : List Setting :=
    pre ++ .mk n (.stored (.vSettings nested)) th own :: post with hallS
  have h0 : instErrors (.mk (.mk i allS dv mv none) vals) =
      perSettingErrors dv mv allS vals allS := rfl
  have hone : oneSettingErrors dv mv allS vals
      (.mk n (.stored (.vSettings nested)) th own) =
      [ErrItem.tree (instErrors nested)] := by
    have h1 : oneSettingErrors dv mv allS vals
        (.mk n (.stored (.vSettings nested)) th own) =
        valueErrors dv mv th own (.vSettings nested) := by
      simp only [oneSettingErrors, hval]
    rw [h1]
    simp only [valueErrors, hleaf, List.nil_append]
  have hsplit : perSettingErrors dv mv allS vals allS =
      perSettingErrors dv mv allS vals pre ++
        ((n, [ErrItem.tree (instErrors nested)]) ::
          perSettingErrors dv mv allS vals post) := by
    rw [hallS, perSettingErrors_append]
    congr 1
    simp only [perSettingErrors, hone, List.cons_append, List.nil_append,
      Setting.name]
  have hpre' : ∀ p ∈ perSettingErrors dv mv allS vals pre, p.1 ≠ n := by
    intro p hp
    obtain ⟨s, hs, hname⟩ := mem_perSettingErrors_name dv mv allS vals pre p hp
    rw [hname]
    exact hpre s hs
  constructor
  · rw [is_valid, h0, hsplit]
    simp
  · rw [h0, hsplit, findErr_append_of_ne n _ _ hpre']
    simp [findErr]

/-- Witness for C1: the triple-nested containers of
`test_nested_triple_nested_validation_errors` — `S3` holds `T: str = 10`
(a type error), `S2` nests `S3`, `S1` nests `S2`; the top-level errors
mapping is the three-level tree from the test. -/
theorem nested_container_errors_tree_witness :
    is_valid (.mk (.mk 1
      [.mk "NESTED_S2" (.stored (.vSettings (.mk (.mk 2
        [.mk "NESTED_S3" (.stored (.vSettings (.mk (.mk 3
          [.mk "T" (.stored (.vInt 10)) .pyStr []] [] [] none) [])))
          (.pySettingsCls 3) []] [] [] none) []))) (.pySettingsCls 2) []]
      [] [] none) []) = false ∧
    findErr "NESTED_S2" (instErrors (.mk (.mk 1
      [.mk "NESTED_S2" (.stored (.vSettings (.mk (.mk 2
        [.mk "NESTED_S3" (.stored (.vSettings (.mk (.mk 3
          [.mk "T" (.stored (.vInt 10)) .pyStr []] [] [] none) [])))
          (.pySettingsCls 3) []] [] [] none) []))) (.pySettingsCls 2) []]
      [] [] none) [])) =
      some [ErrItem.tree [("NESTED_S3", [ErrItem.tree [("T", [ErrItem.msg
        "Expected value of type `<class 'str'>` got value of type `<class 'int'>`"])]])]] := by
  have h := nested_container_errors_tree 1 [] [] [] [] [] "NESTED_S2"
    (.pySettingsCls 2) []
    (.mk (.mk 2
      [.mk "NESTED_S3" (.stored (.vSettings (.mk (.mk 3
        [.mk "T" (.stored (.vInt 10)) .pyStr []] [] [] none) [])))
        (.pySettingsCls 3) []] [] [] none) [])
    (fun s hs => absurd hs (List.not_mem_nil s))
    rfl rfl (List.cons_ne_nil _ _)
  exact ⟨h.1, h.2.trans (by rfl)⟩

/-- C2: validating one setting runs the container's
`default_validators`, then its `mandatory_validators`, then the
Setting's own `validators`, in that concatenation order (mandatory
validators run even when the Setting carries its own validator list),
followed by the built-in type-check validator; all validators run with
no short-circuit and every failure message is collected into the
setting's error list. -/
theorem validator_pipeline_order (dv mv own : List Validator) (th : PyType)
    (allS : List Setting) (vals : List (String × PlainValue))
    (n : String) (d : Value)
    (hleaf : ∀ nested, d ≠ Value.vSettings nested)
    (hnoinst : findVal n vals = none) :
    oneSettingErrors dv mv allS vals (.mk n (.stored d) th own) =
      (runValidators dv d ++ runValidators mv d ++ runValidators own d ++
        (valueTypeValidator th d).toList).map ErrItem.msg := by
  have hvv : valueErrors dv mv th own d = leafErrors dv mv th own d := by
    cases d
    case vSettings nested => exact absurd rfl (hleaf nested)
    all_goals rfl
  simp [oneSettingErrors, hnoinst, hvv, leafErrors, runValidators_append]

/-- Witness for C2: `mandatory_validators = (is_positive,)` and an own
validator list `(is_less_that_10,)` on a setting holding `0`, plus a
failing default validator: all three lists contribute in order, as in
`test_settings_mandatory_validators`. -/
theorem validator_pipeline_order_witness :
    oneSettingErrors [.alwaysFail "D"] [.isPositive] [] []
      (.mk "T0" (.stored (.vInt 0)) .pyInt [.isLessThat10]) =
      [ErrItem.msg "D", ErrItem.msg "Value should be positive"] := by
  have h := validator_pipeline_order [.alwaysFail "D"] [.isPositive]
    [.isLessThat10] .pyInt [] [] "T0" (.vInt 0)
    (fun nested h => Value.noConfusion h) rfl
  exact h.trans (by rfl)

/-- C6: a property-style (computed) setting cannot be assigned through
the instance — doing so fails with the attribute error "property setting
cannot be set" — while reading it re-invokes the computation against the
instance's current stored values: the result reflects the instance state
at read time, including a value assigned after construction. -/
theorem property_setting_read_write (i : Nat) (setts : List Setting)
    (dv mv : List Validator) (ov : Option ValidateOverride)
    (vals : List (String × PlainValue)) (n a b : String) (th : PyType)
    (own : List Validator) (pv : PlainValue)
    (hfind : findSetting n setts = some (.mk n (.computed (.joinTwo a b)) th own))
    (hab : a ≠ b) :
    setAttr (.mk (.mk i setts dv mv ov) vals) n pv =
      .error "Can't set attribute: property setting cannot be set" ∧
    readSetting (.mk (.mk i setts dv mv ov) vals) n =
      .vStr (pyStrOf (resolveStoredValue setts vals a) ++ " " ++
             pyStrOf (resolveStoredValue setts vals b)) ∧
    readSetting (.mk (.mk i setts dv mv ov) ((a, pv) :: vals)) n =
      .vStr (pyStrOf pv.toValue ++ " " ++
             pyStrOf (resolveStoredValue setts vals b)) := by
  refine ⟨?_, ?_, ?_⟩
  · simp [setAttr, SettingsInstance.cls, SettingsClass.settings, hfind, Setting.sval]
  · simp [readSetting, SettingsInstance.cls, SettingsClass.settings,
      SettingsInstance.instValues, hfind, evalComputation, Setting.sval]
  · simp only [readSetting, SettingsInstance.cls, SettingsClass.settings,
      SettingsInstance.instValues, hfind, evalComputation, Setting.sval]
    have ha : resolveStoredValue setts ((a, pv) :: vals) a = pv.toValue := by
      simp [resolveStoredValue, findVal]
    have hb : resolveStoredValue setts ((a, pv) :: vals) b =
        resolveStoredValue setts vals b := by
      simp [resolveStoredValue, findVal, hab]
    rw [ha, hb]

/-- Witness for C6: the container of
`test_property_setting_using_other_settings` (`A: int = 10`,
`B: str = 'hello world'`, computed `AB`), read before and after
assigning `A = 42` through the instance. -/
theorem property_setting_read_write_witness :
    setAttr (.mk (.mk 0 [.mk "A" (.stored (.vInt 10)) .pyInt [],
        .mk "B" (.stored (.vStr "hello world")) .pyStr [],
        .mk "AB" (.computed (.joinTwo "A" "B")) .pyStr []] [] [] none) [])
      "AB" (.pInt 42) =
      .error "Can't set attribute: property setting cannot be set" ∧
    readSetting (.mk (.mk 0 [.mk "A" (.stored (.vInt 10)) .pyInt [],
        .mk "B" (.stored (.vStr "hello world")) .pyStr [],
        .mk "AB" (.computed (.joinTwo "A" "B")) .pyStr []] [] [] none) [])
      "AB" = .vStr "10 hello world" ∧
    readSetting (.mk (.mk 0 [.mk "A" (.stored (.vInt 10)) .pyInt [],
        .mk "B" (.stored (.vStr "hello world")) .pyStr [],
        .mk "AB" (.computed (.joinTwo "A" "B")) .pyStr []] [] [] none)
        [("A", .pInt 42)])
      "AB" = .vStr "42 hello world" := by
  have h := property_setting_read_write 0
    [.mk "A" (.stored (.vInt 10)) .pyInt [],
     .mk "B" (.stored (.vStr "hello world")) .pyStr [],
     .mk "AB" (.computed (.joinTwo "A" "B")) .pyStr []]
    [] [] none [] "AB" "A" "B" .pyStr [] (.pInt 42) (by rfl) (by decide)
  exact ⟨h.1, h.2.1.trans (by rfl), h.2.2.trans (by rfl)⟩

/-- Witness for C9: `demo: str = 10` stays a raw value while
`DEMO: int = 10` becomes a Setting with the annotated type, as in
`test_settings_converted_from_attributes`. -/
theorem attribute_conversion_by_case_witness :
    convertAttribute "demo" (some .pyStr) (.vInt 10) = .rawValue (.vInt 10) ∧
    convertAttribute "DEMO" (some .pyInt) (.vInt 10) =
      .settingMember (.mk "DEMO" (.stored (.vInt 10)) .pyInt []) :=
  ⟨(attribute_conversion_by_case "demo" (some .pyStr) (.vInt 10)).1 (by decide),
   (attribute_conversion_by_case "DEMO" (some .pyInt) (.vInt 10)).2 (by decide) .pyInt⟩

end ConcreteSettings
